import Mathlib

/-!
Shallow embedding of the network-backed FUSE filesystem in `src/fusetry.py`
(class `NetworkedFS`).

Modelling choices, kept one-to-one with the Python source:

* File contents are byte lists (`Bytes`).  The local cache and the remote
  host are partial maps from full path strings to contents; remote
  directories are a set of remote path strings.
* `self.open_files` (a Python dict `fh -> {path, flags}`) is an insertion
  ordered association list with dict assignment/deletion semantics
  (`dictInsert`, key-preserving update; deletion by key filter).
* `self.modified_files` (a Python set of virtual paths) is a Boolean
  valued map over strings.
* Every remote interaction in the source is a single blocking ssh/scp
  invocation.  Its success is an input `tOk : Bool` to the operation that
  performs it: `tOk = false` models a transport failure (non-zero exit /
  unreachable channel).  `_run_ssh_command` returns `none` in that case,
  so the `test -f` / `test -d` probes fail open to `false`, exactly as in
  the source.
* Wall-clock time (`time.time()`) and the caller identity
  (`os.getuid()` / `os.getgid()`) are nondeterministic inputs, passed as
  the arguments `now`, `uid`, `gid` of `getattr`.
* File permission bits set by `os.chmod` in `create` are not tracked: no
  claim mentions cache file modes, only contents and existence.
-/

/-- File contents: a list of bytes, each byte a `Nat`. -/
abbrev Bytes := List Nat

namespace NetworkedFS

/-- Python `path.lstrip('/')`: drop every leading slash. -/
def lstripSlash (p : String) : String :=
  ⟨p.toList.dropWhile (fun c => c = '/')⟩

/-- Whether a string ends with a path separator. -/
def endsWithSlash (a : String) : Bool :=
  a.toList.getLast? = some '/'

/-- Python `os.path.join a b` for the non-absolute second components this
program produces (`b` never starts with a slash after `lstrip('/')`). -/
def pjoin (a b : String) : String :=
  if b = "" then (if endsWithSlash a then a else a ++ "/")
  else if endsWithSlash a then a ++ b
  else a ++ "/" ++ b

/-- `self.cache_dir = '/tmp/netfs_cache'` (a constant in `__init__`). -/
def cacheDirRoot : String := "/tmp/netfs_cache"

/-- The state of one `NetworkedFS` instance together with the world it
talks to: the local cache directory tree, the remote host's files and
directories, the open-handle dict and the modified-path set. -/
structure FSState where
  /-- `self.remote_path` (already absolute). -/
  remoteRoot : String
  /-- Local cache files, keyed by full cache path. -/
  cache : String → Option Bytes
  /-- Remote regular files, keyed by full remote path. -/
  remoteFiles : String → Option Bytes
  /-- Remote directories, keyed by full remote path. -/
  remoteDirs : String → Bool
  /-- `self.open_files`: dict from handle to (path, flags). -/
  openFiles : List (Nat × String × Nat)
  /-- `self.modified_files`: set of virtual paths. -/
  modified : String → Bool

/-- `os.path.join(self.cache_dir, path.lstrip('/'))`. -/
def cachePathOf (path : String) : String :=
  pjoin cacheDirRoot (lstripSlash path)

/-- `_get_remote_path`: `os.path.join(self.remote_path, path.lstrip('/'))`. -/
def remotePathOf (st : FSState) (path : String) : String :=
  pjoin st.remoteRoot (lstripSlash path)

/-- `_check_remote_file_exists`: ssh `test -f` probe; a transport failure
makes `_run_ssh_command` return `None`, which compares unequal to
`'exists'`, so the probe fails open to `false`. -/
def checkRemoteFileExists (st : FSState) (path : String) (tOk : Bool) : Bool :=
  tOk && (st.remoteFiles (remotePathOf st path)).isSome

/-- `_check_remote_dir_exists`: ssh `test -d` probe, same fail-open shape. -/
def checkRemoteDirExists (st : FSState) (path : String) (tOk : Bool) : Bool :=
  tOk && st.remoteDirs (remotePathOf st path)

/-- `_get_remote_file_size`: `ls -l | awk .\x7bprint $5\x7d` over ssh; the byte
size of the remote file, or `0` when the output is empty or unparsable
(transport failure, or file absent so `ls` prints nothing). -/
def getRemoteFileSize (st : FSState) (rp : String) (tOk : Bool) : Nat :=
  if tOk then
    match st.remoteFiles rp with
    | some c => c.length
    | none => 0
  else 0

/-- `_fetch_file`: `scp host:remote cache` after `os.makedirs`.  The copy
succeeds iff the transport is up and the remote file exists; on success the
cache entry holds the remote content and the method returns `True`, on a
`CalledProcessError` it returns `False` and the cache is untouched. -/
def fetchFile (st : FSState) (path : String) (tOk : Bool) : Bool × FSState :=
  match st.remoteFiles (remotePathOf st path), tOk with
  | some content, true =>
      (true, { st with
        cache := fun q => if q = cachePathOf path then some content else st.cache q })
  | _, _ => (false, st)

/-- Errors surfaced by the operations: `FuseOSError(errno.ENOENT)`,
`FuseOSError(errno.EIO)`, and an unhandled Python `FileNotFoundError`
escaping from `open(cache_path, 'rb+')` on a missing cache file. -/
inductive Err where
  | enoent
  | eio
  | pyFileNotFound
deriving DecidableEq

/-- `create`: make parent dirs, `open(cache_path, 'a').close()` (creates an
empty file when absent, keeps existing content otherwise), `os.chmod`,
add the path to `modified_files`, return `0`.  No handle is allocated. -/
def create (st : FSState) (path : String) : Nat × FSState :=
  (0, { st with
    cache := fun q =>
      if q = cachePathOf path then
        some ((st.cache (cachePathOf path)).getD [])
      else st.cache q,
    modified := fun q => if q = path then true else st.modified q })

/-- Python dict assignment `d[k] = v`: update in place when the key is
present, append otherwise. -/
def dictInsert (d : List (Nat × String × Nat)) (k : Nat) (v : String × Nat) :
    List (Nat × String × Nat) :=
  if d.any (fun kv => kv.1 = k) then
    d.map (fun kv => if kv.1 = k then (k, v) else kv)
  else d ++ [(k, v)]

/-- The shared fetch-on-miss preamble of `open` and `truncate`:
`if not os.path.exists(cache_path) and self._check_remote_file_exists(path):
self._fetch_file(path)`, with `_fetch_file`'s return value ignored. -/
def fetchOnMiss (st : FSState) (path : String) (tOk : Bool) : FSState :=
  if (st.cache (cachePathOf path)).isNone && checkRemoteFileExists st path tOk then
    (fetchFile st path tOk).2
  else st

/-- The handle-allocation block of `open`:
`fh = len(self.open_files); self.open_files[fh] = ...; return fh`. -/
def allocHandle (st : FSState) (path : String) (flags : Nat) : Nat × FSState :=
  (st.openFiles.length,
   { st with openFiles := dictInsert st.openFiles st.openFiles.length (path, flags) })

/-- `open`: fetch when the cache misses and the remote copy exists, then
`fh = len(self.open_files)`; `self.open_files[fh] = ...`; return `fh`.
The `_fetch_file` return value is ignored, and no error is ever raised. -/
def openFile (st : FSState) (path : String) (flags : Nat) (tOk : Bool) :
    Nat × FSState :=
  allocHandle (fetchOnMiss st path tOk) path flags

/-- The effect of `f.seek(offset); f.write(data)` on a file opened `'rb+'`:
bytes before `offset` survive (zero-filled when seeking past the end),
`data` overwrites from `offset`, the tail beyond the written range
survives. -/
def writeAt (content : Bytes) (offset : Nat) (data : Bytes) : Bytes :=
  content.take offset ++ List.replicate (offset - content.length) 0 ++ data
    ++ content.drop (offset + data.length)

/-- `write`: make parent dirs, `open(cache_path, 'rb+')` — which raises an
unhandled `FileNotFoundError` when the cache file is absent (there is no
fetch-on-miss here, unlike `truncate`) — seek/write, add the path to
`modified_files`, return `len(data)`. -/
def write (st : FSState) (path : String) (data : Bytes) (offset : Nat) :
    Except Err (Nat × FSState) :=
  match st.cache (cachePathOf path) with
  | none => .error .pyFileNotFound
  | some content =>
      .ok (data.length, { st with
        cache := fun q =>
          if q = cachePathOf path then some (writeAt content offset data)
          else st.cache q,
        modified := fun q => if q = path then true else st.modified q })

/-- Python `f.truncate(n)`: cut to `n` bytes, or zero-pad up to `n`. -/
def truncBytes (content : Bytes) (n : Nat) : Bytes :=
  if n ≤ content.length then content.take n
  else content ++ List.replicate (n - content.length) 0

/-- The local tail of `truncate`: `open(cache_path, 'r+b')` — raising an
unhandled `FileNotFoundError` when the cache file is absent — then
`f.truncate(length)`, mark modified, return `0`. -/
def truncLocal (st1 : FSState) (path : String) (n : Nat) :
    Except Err (Nat × FSState) :=
  match st1.cache (cachePathOf path) with
  | none => .error .pyFileNotFound
  | some content =>
      .ok (0, { st1 with
        cache := fun q =>
          if q = cachePathOf path then some (truncBytes content n)
          else st1.cache q,
        modified := fun q => if q = path then true else st1.modified q })

/-- `truncate`: fetch-on-miss when the remote copy exists (return value of
`_fetch_file` ignored), then truncate the cache file. -/
def truncate (st : FSState) (path : String) (n : Nat) (tOk : Bool) :
    Except Err (Nat × FSState) :=
  truncLocal (fetchOnMiss st path tOk) path n

/-- `_sync_to_remote`: when the cache file exists, `scp cache host:remote`;
success pushes the cache content to the remote path and returns `True`;
a `CalledProcessError` (transport down) returns `False`; a missing cache
file returns `False` without any remote call. -/
def syncToRemote (st : FSState) (path : String) (tOk : Bool) : Bool × FSState :=
  match st.cache (cachePathOf path) with
  | some content =>
      if tOk then
        (true, { st with
          remoteFiles := fun q =>
            if q = remotePathOf st path then some content else st.remoteFiles q })
      else (false, st)
  | none => (false, st)

/-- The first block of `release`: when the path is in `modified_files`,
call `_sync_to_remote` — its Boolean result is discarded — and remove the
path from `modified_files` unconditionally. -/
def releaseSync (st : FSState) (path : String) (tOk : Bool) : FSState :=
  if st.modified path then
    { (syncToRemote st path tOk).2 with
      modified := fun q =>
        if q = path then false else (syncToRemote st path tOk).2.modified q }
  else st

/-- `release`: sync-and-unmark when dirty, then delete the handle from
`open_files` when present; return `0` always. -/
def release (st : FSState) (path : String) (fh : Nat) (tOk : Bool) :
    Nat × FSState :=
  (0, { releaseSync st path tOk with
        openFiles := (releaseSync st path tOk).openFiles.filter
          (fun kv => kv.1 ≠ fh) })

/-- The result of a successful `read`: the bytes returned to the kernel,
the state after the call, and whether the scp fetch was invoked. -/
structure ReadOut where
  bytes : Bytes
  st : FSState
  fetched : Bool

/-- `read`: make parent dirs; when the cache misses, scp the remote file in
(`check=True`: a failed copy — transport down or remote file absent —
raises `FuseOSError(errno.EIO)`); then open the cache file `'rb'`,
`f.seek(offset)`, `return f.read(size)` (short reads at end of file are
just shorter lists, not errors). -/
def read (st : FSState) (path : String) (size offset : Nat) (tOk : Bool) :
    Except Err ReadOut :=
  match st.cache (cachePathOf path) with
  | some content => .ok ⟨(content.drop offset).take size, st, false⟩
  | none =>
      match st.remoteFiles (remotePathOf st path), tOk with
      | some content, true =>
          .ok ⟨(content.drop offset).take size,
               { st with cache := fun q =>
                   if q = cachePathOf path then some content else st.cache q },
               true⟩
      | _, _ => .error .eio

/-- Python `result.split(chr(10))`: split on every newline, keeping empty
pieces. -/
def splitLines (s : String) : List String :=
  (s.toList.splitOn '\n').map (fun cs => ⟨cs⟩)

/-- Python `str.strip()`: drop leading and trailing whitespace. -/
def pyStrip (s : String) : String :=
  ⟨((s.toList.dropWhile Char.isWhitespace).reverse.dropWhile
      Char.isWhitespace).reverse⟩

/-- `readdir`: start from `['.', '..']`, run `ls -1a` over ssh (the input
`raw` is the value `_run_ssh_command` produced: the stripped stdout on
exit 0, `none` on failure), and when the result is truthy (neither `None`
nor the empty string) append each stripped line that is non-empty and not
literally `'.'` or `'..'`.  No state is read or written: every call is
answered from the live remote listing alone. -/
def readdir : Option String → List String
  | none => [".", ".."]
  | some s =>
      if s = "" then [".", ".."]
      else
        (splitLines s).foldl
          (fun acc entry =>
            if pyStrip entry ≠ "" ∧ pyStrip entry ∉ ([".", ".."] : List String)
            then acc ++ [pyStrip entry] else acc)
          [".", ".."]

/-- Wire-format attribute record returned by `getattr` (all fields the
Python dict carries; timestamps collapsed to the single `time.time()`
value passed in as `now`). -/
structure Attr where
  st_mode : Nat
  st_nlink : Nat
  st_size : Nat
  st_ctime : Nat
  st_mtime : Nat
  st_atime : Nat
  st_uid : Nat
  st_gid : Nat
deriving DecidableEq

/-- The synthetic directory attribute dict of `getattr`. -/
def dirAttr (now uid gid : Nat) : Attr :=
  ⟨0o40000 ||| 0o755, 2, 4096, now, now, now, uid, gid⟩

/-- The regular-file attribute dict of `getattr`. -/
def fileAttr (size now uid gid : Nat) : Attr :=
  ⟨0o100000 ||| 0o644, 1, size, now, now, now, uid, gid⟩

/-- `getattr`: the root path is answered synthetically with no cache or
remote consultation; otherwise try the remote directory probe, then the
remote file probe (with `ls -l` size), else `FuseOSError(errno.ENOENT)`.
The local cache is never consulted. -/
def getattr (st : FSState) (path : String) (now uid gid : Nat) (tOk : Bool) :
    Except Err Attr :=
  if path = "/" then .ok (dirAttr now uid gid)
  else if checkRemoteDirExists st path tOk then .ok (dirAttr now uid gid)
  else if checkRemoteFileExists st path tOk then
    .ok (fileAttr (getRemoteFileSize st (remotePathOf st path) tOk) now uid gid)
  else .error .enoent

/-- A fresh instance over an empty cache and an empty remote root
`/data`: the state right after `__init__` against a bare remote. -/
def emptySt : FSState :=
  { remoteRoot := "/data"
    cache := fun _ => none
    remoteFiles := fun _ => none
    remoteDirs := fun _ => false
    openFiles := []
    modified := fun _ => false }

/-- A state whose remote root holds one file `/data/a.txt` with content
`"hello"`, and an empty cache. -/
def stHello : FSState :=
  { emptySt with
    remoteFiles := fun q =>
      if q = "/data/a.txt" then some [104, 101, 108, 108, 111] else none }

/-- A state holding one dirty cached file `/a.txt` (content `"hi"`), as
left by a write that has not yet been pushed. -/
def dirtySt : FSState :=
  { emptySt with
    cache := fun q => if q = cachePathOf "/a.txt" then some [104, 105] else none
    modified := fun q => q == "/a.txt" }

/-- C9: `getattr` on the root path returns the synthetic directory
attributes (directory mode, link count 2, size 4096, the caller's uid and
gid) in every state, for every transport condition; it never consults the
cache or the remote host and never returns `NotFound`. -/
theorem c9_root_getattr_synthetic (st : FSState) (now uid gid : Nat) (tOk : Bool) :
    getattr st "/" now uid gid tOk = .ok (dirAttr now uid gid) := rfl

/-- C1: evaluation at the failing input.  In `dirtySt` the path `/a.txt`
is dirty and cached; a `release` whose push fails (`tOk = false`) still
returns `0` and removes the path from `modified_files`, and the remote
copy was never written: the code silently discards the dirty state on a
failed push, contradicting the claim. -/
theorem c1_release_clears_dirty_on_failed_push :
    dirtySt.modified "/a.txt" = true ∧
    (release dirtySt "/a.txt" 5 false).1 = 0 ∧
    (release dirtySt "/a.txt" 5 false).2.modified "/a.txt" = false ∧
    (release dirtySt "/a.txt" 5 false).2.remoteFiles (remotePathOf dirtySt "/a.txt")
      = none := by
  decide

/-- C6: evaluation at the failing input.  Open `/a` (handle 0), open `/b`
(handle 1), release handle 0, open `/c`: the new handle is
`len(open_files) = 1`, which is still live for `/b`, and the dict
assignment overwrites the live `/b` entry — refuting the claim that open
never returns an id currently present in the table. -/
theorem c6_handle_id_collision :
    ((release (openFile (openFile emptySt "/a" 0 false).2 "/b" 0 false).2 "/a" 0
        false).2.openFiles = [(1, "/b", 0)]) ∧
    ((openFile (release (openFile (openFile emptySt "/a" 0 false).2 "/b" 0
        false).2 "/a" 0 false).2 "/c" 0 false).1 = 1) ∧
    ((openFile (release (openFile (openFile emptySt "/a" 0 false).2 "/b" 0
        false).2 "/a" 0 false).2 "/c" 0 false).2.openFiles = [(1, "/c", 0)]) := by
  decide

/-- C2: with a remote file of content `B` at `P` and no cache entry, a
transport-working `read(P, len(B), 0)` returns exactly `B` and leaves a
cache entry for `P` holding `B`; moreover any such fetch-then-read seeks
to `offset`, returns `(B.drop offset).take size`, never more than `size`
bytes, and a short read at end of file is an ordinary `.ok`. -/
theorem c2_fetch_then_read (st : FSState) (P : String) (B : Bytes)
    (size offset : Nat)
    (hremote : st.remoteFiles (remotePathOf st P) = some B)
    (hmiss : st.cache (cachePathOf P) = none) :
    (∃ out, read st P B.length 0 true = .ok out ∧ out.bytes = B ∧
       out.st.cache (cachePathOf P) = some B) ∧
    (∀ out, read st P size offset true = .ok out →
       out.bytes = (B.drop offset).take size ∧ out.bytes.length ≤ size) := by
  have hread : ∀ sz off, read st P sz off true =
      .ok ⟨(B.drop off).take sz,
           { st with cache := fun q => if q = cachePathOf P then some B else st.cache q },
           true⟩ := by
    intro sz off
    unfold read
    rw [hmiss, hremote]
  constructor
  · refine ⟨_, hread B.length 0, by simp, by simp⟩
  · intro out hout
    rw [hread size offset] at hout
    injection hout with h
    subst h
    exact ⟨rfl, List.length_take_le _ _⟩

/-- Closed witness for C2 at `stHello`: reading 5 bytes of `/a.txt` from
offset 0 returns `"hello"` and caches it. -/
theorem c2_fetch_then_read_witness :
    ∃ out, read stHello "/a.txt" 5 0 true = .ok out ∧
      out.bytes = [104, 101, 108, 108, 111] ∧
      out.st.cache (cachePathOf "/a.txt") = some [104, 101, 108, 108, 111] :=
  (c2_fetch_then_read stHello "/a.txt" [104, 101, 108, 108, 111] 3 1
    (by decide) (by decide)).1


/-- C7: a `read` against a path whose cache entry exists never invokes the
scp fetch: it returns the cached bytes, leaves the state untouched and
reports `fetched = false`, for every size, offset and transport
condition; and every successful `read` leaves a cache entry behind, so
once a first read has populated the cache all later reads of that path
take the cache-hit branch. -/
theorem c7_cache_hit_short_circuit (path : String) :
    (∀ (st : FSState) (content : Bytes),
       st.cache (cachePathOf path) = some content →
       ∀ size offset tOk,
         read st path size offset tOk
           = .ok ⟨(content.drop offset).take size, st, false⟩) ∧
    (∀ (st : FSState) (size offset : Nat) (tOk : Bool) (out : ReadOut),
       read st path size offset tOk = .ok out →
       ∃ c, out.st.cache (cachePathOf path) = some c) := by
  constructor
  · intro st content hc size offset tOk
    unfold read
    rw [hc]
  · intro st size offset tOk out hout
    unfold read at hout
    rcases hc : st.cache (cachePathOf path) with _ | c
    · rw [hc] at hout
      rcases hr : st.remoteFiles (remotePathOf st path) with _ | B
      · rw [hr] at hout
        cases tOk <;> simp at hout
      · rw [hr] at hout
        cases tOk
        · simp at hout
        · injection hout with h
          subst h
          exact ⟨B, by simp⟩
    · rw [hc] at hout
      injection hout with h
      subst h
      exact ⟨c, hc⟩

/-- Closed witness for C7: reading the cached `/a.txt` of `dirtySt` even
with the transport down succeeds from the cache without fetching. -/
theorem c7_cache_hit_short_circuit_witness :
    read dirtySt "/a.txt" 2 0 false = .ok ⟨[104, 105], dirtySt, false⟩ :=
  (c7_cache_hit_short_circuit "/a.txt").1 dirtySt [104, 105] (by decide) 2 0 false

/-- A state with a locally created, never-pushed file `/b.txt` (cache
entry present and dirty) and a completely empty remote. -/
def stLocalOnly : FSState :=
  { emptySt with
    cache := fun q => if q = cachePathOf "/b.txt" then some [] else none
    modified := fun q => q == "/b.txt" }

/-- C3 counterexample: `/b.txt` has a cache entry (it was just created
locally) and is absent from the remote, yet `getattr` answers `NotFound`
— the code never consults the cache, refuting the claim that a cached
path is reported as a regular file. -/
theorem c3_counterexample_cached_path_notfound :
    stLocalOnly.cache (cachePathOf "/b.txt") = some [] ∧
    getattr stLocalOnly "/b.txt" 0 1000 1000 true = .error Err.enoent := by
  exact ⟨by decide, by rfl⟩

/-- C3 amended: for non-root paths (with the transport up) `getattr`
returns `NotFound` exactly when the path is absent from the remote host —
neither a remote directory nor a remote file; the cache plays no part in
the answer. -/
theorem c3_getattr_notfound_iff_remote_absent (st : FSState) (path : String)
    (now uid gid : Nat) (h : path ≠ "/") :
    getattr st path now uid gid true = .error Err.enoent ↔
      st.remoteDirs (remotePathOf st path) = false ∧
      st.remoteFiles (remotePathOf st path) = none := by
  cases hd : st.remoteDirs (remotePathOf st path) with
  | true =>
      simp [getattr, checkRemoteDirExists, if_neg h, hd]
  | false =>
      cases hr : st.remoteFiles (remotePathOf st path) with
      | some c =>
          simp [getattr, checkRemoteDirExists, checkRemoteFileExists,
                if_neg h, hd, hr]
      | none =>
          simp [getattr, checkRemoteDirExists, checkRemoteFileExists,
                if_neg h, hd, hr]

/-- Closed witness for the amended C3 at a path absent everywhere. -/
theorem c3_getattr_notfound_iff_remote_absent_witness :
    getattr emptySt "/nope" 0 0 0 true = .error Err.enoent :=
  (c3_getattr_notfound_iff_remote_absent emptySt "/nope" 0 0 0
    (by decide)).mpr ⟨rfl, rfl⟩

/-- C4 counterexample: `/x` exists neither in the cache nor on the remote
host, yet `open` does not fail with `NotFound`: it returns handle `0`,
registers it in the handle table, and fetches nothing. -/
theorem c4_counterexample_open_never_notfound :
    emptySt.cache (cachePathOf "/x") = none ∧
    emptySt.remoteFiles (remotePathOf emptySt "/x") = none ∧
    (openFile emptySt "/x" 0 true).1 = 0 ∧
    (openFile emptySt "/x" 0 true).2.openFiles = [(0, "/x", 0)] ∧
    (openFile emptySt "/x" 0 true).2.cache (cachePathOf "/x") = none := by
  decide

/-- C4 amended: for a path with no cache entry (transport up), `open`
fetches the remote copy into the cache when one exists; when the path
exists neither in the cache nor on the remote host, `open` does not fail
— the fetch is skipped and a handle is still allocated and returned. -/
theorem c4_open_fetches_or_allocates (st : FSState) (path : String)
    (flags : Nat) (hmiss : st.cache (cachePathOf path) = none) :
    (∀ B, st.remoteFiles (remotePathOf st path) = some B →
       (openFile st path flags true).2.cache (cachePathOf path) = some B) ∧
    (st.remoteFiles (remotePathOf st path) = none →
       openFile st path flags true
         = (st.openFiles.length,
            { st with openFiles :=
                dictInsert st.openFiles st.openFiles.length (path, flags) })) := by
  constructor
  · intro B hB
    unfold openFile fetchOnMiss checkRemoteFileExists fetchFile allocHandle
    rw [hmiss, hB]
    simp
  · intro hB
    unfold openFile fetchOnMiss checkRemoteFileExists allocHandle
    rw [hmiss, hB]
    simp

/-- Closed witness for the amended C4: opening the uncached `/a.txt` of
`stHello` pulls the remote bytes into the cache. -/
theorem c4_open_fetches_or_allocates_witness :
    (openFile stHello "/a.txt" 0 true).2.cache (cachePathOf "/a.txt")
      = some [104, 101, 108, 108, 111] :=
  (c4_open_fetches_or_allocates stHello "/a.txt" 0 (by decide)).1
    [104, 101, 108, 108, 111] (by decide)

/-- C5 counterexample: `/a.txt` exists on the remote host but has no
cache entry, and `write` does not fetch it: it fails with an unhandled
`FileNotFoundError` instead of performing the mutation, refuting the
claim that `write` fetches on miss. -/
theorem c5_counterexample_write_does_not_fetch :
    stHello.remoteFiles (remotePathOf stHello "/a.txt")
      = some [104, 101, 108, 108, 111] ∧
    stHello.cache (cachePathOf "/a.txt") = none ∧
    write stHello "/a.txt" [57] 0 = .error Err.pyFileNotFound := by
  exact ⟨by decide, rfl, rfl⟩

/-- The local tail of `truncate` succeeds on a present cache entry and
truncates it, marking the path dirty. -/
theorem truncLocal_spec (st1 : FSState) (path : String) (n : Nat)
    (content : Bytes)
    (hc : st1.cache (cachePathOf path) = some content) :
    ∃ st2, truncLocal st1 path n = .ok (0, st2) ∧
      st2.cache (cachePathOf path) = some (truncBytes content n) ∧
      st2.modified path = true := by
  unfold truncLocal
  rw [hc]
  exact ⟨_, rfl, by simp, by simp⟩

/-- C5 amended: `write` requires the cache entry to already exist — on a
miss it raises an unhandled `FileNotFoundError` even when a remote copy
exists; with a cache entry it mutates at the offset and returns
`len(data)` and marks the path dirty.  The fetch-on-miss against an
existing remote file belongs to `truncate`, not `write`. -/
theorem c5_write_needs_cache_truncate_fetches (st : FSState) (path : String) :
    (st.cache (cachePathOf path) = none →
       ∀ data offset, write st path data offset = .error Err.pyFileNotFound) ∧
    (∀ content, st.cache (cachePathOf path) = some content →
       ∀ data offset, ∃ st2,
         write st path data offset = .ok (data.length, st2) ∧
         st2.cache (cachePathOf path) = some (writeAt content offset data) ∧
         st2.modified path = true) ∧
    (st.cache (cachePathOf path) = none →
       ∀ B, st.remoteFiles (remotePathOf st path) = some B →
       ∀ n, ∃ st2, truncate st path n true = .ok (0, st2) ∧
         st2.cache (cachePathOf path) = some (truncBytes B n) ∧
         st2.modified path = true) := by
  refine ⟨?_, ?_, ?_⟩
  · intro h data offset
    unfold write
    rw [h]
  · intro content h data offset
    unfold write
    rw [h]
    exact ⟨_, rfl, by simp, by simp⟩
  · intro h B hB n
    have hcond : ((st.cache (cachePathOf path)).isNone
        && checkRemoteFileExists st path true) = true := by
      unfold checkRemoteFileExists
      rw [h, hB]
      rfl
    have hcache : (fetchOnMiss st path true).cache (cachePathOf path)
        = some B := by
      unfold fetchOnMiss
      rw [if_pos hcond]
      unfold fetchFile
      rw [hB]
      simp
    unfold truncate
    exact truncLocal_spec _ path n B hcache

/-- Closed witness for the amended C5: a miss-write on `/w.txt` fails
unhandled, and a miss-truncate on the remotely existing `/a.txt` fetches
and truncates. -/
theorem c5_write_needs_cache_truncate_fetches_witness :
    write stHello "/w.txt" [5] 0 = .error Err.pyFileNotFound ∧
    (∃ st2, truncate stHello "/a.txt" 2 true = .ok (0, st2) ∧
       st2.cache (cachePathOf "/a.txt")
         = some (truncBytes [104, 101, 108, 108, 111] 2) ∧
       st2.modified "/a.txt" = true) :=
  ⟨(c5_write_needs_cache_truncate_fetches stHello "/w.txt").1 rfl [5] 0,
   (c5_write_needs_cache_truncate_fetches stHello "/a.txt").2.2 rfl
     [104, 101, 108, 108, 111] (by decide) 2⟩

/-- C10: `create` on a fresh path returns `0`, leaves the handle table
untouched, materializes an empty cache file and marks the path dirty at
once; a `release` that follows with no intervening write (successful
push) therefore sends the empty file to the remote host and clears the
dirty mark. -/
theorem c10_create_dirty_release_pushes_empty (st : FSState) (path : String)
    (fh : Nat) (hmiss : st.cache (cachePathOf path) = none) :
    (create st path).1 = 0 ∧
    (create st path).2.openFiles = st.openFiles ∧
    (create st path).2.modified path = true ∧
    (create st path).2.cache (cachePathOf path) = some [] ∧
    (release (create st path).2 path fh true).1 = 0 ∧
    (release (create st path).2 path fh true).2.remoteFiles
        (remotePathOf st path) = some [] ∧
    (release (create st path).2 path fh true).2.modified path = false := by
  refine ⟨rfl, rfl, by simp [create], by simp [create, hmiss], rfl, ?_, ?_⟩
  · simp [release, releaseSync, syncToRemote, create, remotePathOf, hmiss]
  · simp [release, releaseSync, syncToRemote, create, hmiss]

/-- Closed witness for C10 at a fresh `/b.txt` over `emptySt`. -/
theorem c10_create_dirty_release_pushes_empty_witness :
    (create emptySt "/b.txt").2.modified "/b.txt" = true ∧
    (release (create emptySt "/b.txt").2 "/b.txt" 0 true).2.remoteFiles
        (remotePathOf emptySt "/b.txt") = some [] :=
  ⟨(c10_create_dirty_release_pushes_empty emptySt "/b.txt" 0 rfl).2.2.1,
   (c10_create_dirty_release_pushes_empty emptySt "/b.txt" 0 rfl).2.2.2.2.2.1⟩

/-- The entry-acceptance test of the `readdir` loop:
`if entry and entry not in ['.', '..']`, as a Boolean predicate. -/
def keepEntry (e : String) : Bool :=
  decide (e ≠ "" ∧ e ∉ ([".", ".."] : List String))

/-- The `readdir` entry loop in appending-accumulator form: folding the
stripped lines into `acc` equals `acc` followed by the stripped lines
that pass the filter. -/
theorem readdir_foldl_eq_filter (l acc : List String) :
    l.foldl
      (fun acc entry =>
        if pyStrip entry ≠ "" ∧ pyStrip entry ∉ ([".", ".."] : List String)
        then acc ++ [pyStrip entry] else acc) acc
      = acc ++ (l.map pyStrip).filter keepEntry := by
  induction l generalizing acc with
  | nil => simp
  | cons x xs ih =>
      rw [List.foldl_cons, List.map_cons, List.filter_cons, ih]
      by_cases hx : pyStrip x ≠ "" ∧ pyStrip x ∉ ([".", ".."] : List String)
      · have hd : keepEntry (pyStrip x) = true := by
          unfold keepEntry
          exact decide_eq_true hx
        rw [if_pos hx, hd]
        simp
      · have hd : keepEntry (pyStrip x) = false := by
          unfold keepEntry
          exact decide_eq_false hx
        rw [if_neg hx, hd]
        simp

/-- Modelled from the spec's `readdir` and `list` sentences: the parsed
portion of a remote listing — each line stripped, with empty entries and
entries literally `'.'` or `'..'` dropped; a transport error (or empty
output) parses to the empty sequence. -/
def specParsedEntries : Option String → List String
  | none => []
  | some s =>
      if s = "" then []
      else ((splitLines s).map pyStrip).filter keepEntry

/-- C8: every `readdir` answer is exactly `['.', '..']` followed by the
parsed remote entries; a transport error parses to the empty sequence so
the result degrades to just `['.', '..']`; and no parsed entry is
literally `'.'` or `'..'`.  `readdir` takes the live `ls -1a` output as
its input and touches no state, so every call re-queries the remote
host and listings are never cached. -/
theorem c8_readdir_parses_live_listing :
    (∀ raw, readdir raw = [".", ".."] ++ specParsedEntries raw) ∧
    specParsedEntries none = [] ∧
    readdir none = [".", ".."] ∧
    (∀ raw e, e ∈ specParsedEntries raw → e ≠ "." ∧ e ≠ "..") := by
  refine ⟨?_, rfl, rfl, ?_⟩
  · intro raw
    cases raw with
    | none => rfl
    | some s =>
        show (if s = "" then [".", ".."]
          else (splitLines s).foldl
            (fun acc entry =>
              if pyStrip entry ≠ "" ∧ pyStrip entry ∉ ([".", ".."] : List String)
              then acc ++ [pyStrip entry] else acc)
            [".", ".."])
          = [".", ".."] ++
            (if s = "" then []
             else ((splitLines s).map pyStrip).filter keepEntry)
        by_cases hs : s = ""
        · simp [hs]
        · rw [if_neg hs, if_neg hs, readdir_foldl_eq_filter]
  · intro raw e he
    cases raw with
    | none => simp [specParsedEntries] at he
    | some s =>
        have he2 : e ∈ (if s = "" then ([] : List String)
            else ((splitLines s).map pyStrip).filter keepEntry) := he
        by_cases hs : s = ""
        · rw [if_pos hs] at he2
          simp at he2
        · rw [if_neg hs] at he2
          have hp := List.of_mem_filter he2
          unfold keepEntry at hp
          simp only [decide_eq_true_eq] at hp
          refine ⟨?_, ?_⟩ <;> intro hcontra <;> exact hp.2 (by simp [hcontra])

/-- Closed witness for C8: a listing containing `.`, `..`, padded and
plain names, and a blank line parses to the plain names only. -/
theorem c8_readdir_parses_live_listing_witness :
    readdir (some "file one\n.\n..\n\n data.bin ")
      = [".", "..", "file one", "data.bin"] := by
  rw [c8_readdir_parses_live_listing.1 (some "file one\n.\n..\n\n data.bin ")]
  rfl

end NetworkedFS
